import Mathlib

/-!
Verification of the image-cache preferences layer of mayaMatchMoveSolver
(`src/python/mmSolver/tools/imagecacheprefs/ui/imagecacheprefs_layout.py`),
against the capacity-configuration specification.

Python floats are embedded as exact rationals (ℚ); byte counts as
integers (ℤ).  Python's `int(x)` conversion (truncation toward zero) is
`pyInt`.  Configuration stores (the home-directory config file and the
Maya scene options) are embedded as partial maps `String → Option CValue`.
-/

/-- Python's `int(x)` applied to a float: truncation toward zero. -/
def pyInt (q : ℚ) : ℤ :=
  if 0 ≤ q then ⌊q⌋ else ⌈q⌉

/-- A value storable in a config file or as a Maya scene option
(`int`, `float` or `bool` in the Python code). -/
inductive CValue
  | int (i : ℤ)
  | float (q : ℚ)
  | bool (b : Bool)
  deriving DecidableEq

/-- `CapacityValue = collections.namedtuple('CapacityValue', ['size_bytes', 'percent'])`. -/
structure CapacityValue where
  size_bytes : ℤ
  percent : ℚ
  deriving DecidableEq

/-- The live memory-total queries `lib.get_gpu_memory_total_bytes()` /
`lib.get_cpu_memory_total_bytes()`: the environment observed at one call. -/
structure Env where
  gpuMemoryTotal : ℤ
  cpuMemoryTotal : ℤ

/-- A key-value store (the config file contents, or the Maya scene options). -/
def Store : Type := String → Option CValue

/-- Update one key of a store. -/
def Store.set (s : Store) (key : String) (v : CValue) : Store :=
  fun k => if k = key then some v else s k

/-- The resident entries of the two cache pools (entry sizes in bytes).
The cache engine itself is not part of the examined source; only its
untouched-ness under configuration writes is asserted here. -/
structure CacheState where
  gpuPool : List ℤ
  cpuPool : List ℤ
  deriving DecidableEq

/-- The mutable program state the preferences layer touches: the persisted
config file, the Maya scene options, and the cache pools. -/
structure AppState where
  config : Store
  scene : Store
  cache : CacheState

/- Key names from `mmSolver/tools/imagecacheprefs/constant.py` (the constants
module is not among the examined files; only the distinctness of the keys
matters to the behaviour modelled here). -/

def CONFIG_UPDATE_EVERY_N_SECONDS_KEY : String := "update_seconds"

def CONFIG_GPU_CAPACITY_PERCENT_KEY : String := "gpu_capacity_percent"

def CONFIG_CPU_CAPACITY_PERCENT_KEY : String := "cpu_capacity_percent"

def CONFIG_SCENE_CAPACITY_OVERRIDE_KEY : String := "scene_capacity_override"

def CONFIG_SCENE_GPU_CAPACITY_PERCENT_KEY : String := "scene_gpu_capacity_percent"

def CONFIG_SCENE_CPU_CAPACITY_PERCENT_KEY : String := "scene_cpu_capacity_percent"

/-- Default for `CONFIG_UPDATE_EVERY_N_SECONDS_DEFAULT_VALUE` (an `int`
constant from the constants module; its exact value is immaterial to the
claims verified here). -/
def CONFIG_UPDATE_EVERY_N_SECONDS_DEFAULT_VALUE : ℤ := 2

/-- `get_config_value(config, key, fallback)`: the fallback when the config
object is `None`, otherwise `config.get_value(key, fallback)`.  Modelled from
the spec: `config_utils.Config.get_value` (not among the examined files) is a
key lookup that falls back to the supplied default when the key is unset. -/
def get_config_value (config : Option Store) (key : String) (fallback : CValue) : CValue :=
  match config with
  | none => fallback
  | some c => (c key).getD fallback

/-- `get_update_every_n_seconds(config, default_value=None)`.  Returns `none`
on an assertion failure (a non-`int` stored value). -/
def get_update_every_n_seconds (config : Option Store) (default_value : Option ℤ) : Option ℤ :=
  let dv := default_value.getD CONFIG_UPDATE_EVERY_N_SECONDS_DEFAULT_VALUE
  match get_config_value config CONFIG_UPDATE_EVERY_N_SECONDS_KEY (CValue.int dv) with
  | CValue.int seconds => some seconds
  | _ => none

/-- `get_gpu_cache_capacity_percent_default(config, default_value=None)`:
percent from the config file (fallback `0.0`), byte size
`int(percent / 100.0 * gpu_memory_total)` from the live memory query.
Returns `none` on an assertion failure (a non-`float` stored value). -/
def get_gpu_cache_capacity_percent_default (env : Env) (config : Option Store)
    (default_value : Option ℚ) : Option CapacityValue :=
  let dv := default_value.getD 0
  match get_config_value config CONFIG_GPU_CAPACITY_PERCENT_KEY (CValue.float dv) with
  | CValue.float percent =>
      let ratio := percent / 100
      some ⟨pyInt (ratio * (env.gpuMemoryTotal : ℚ)), percent⟩
  | _ => none

/-- `get_cpu_cache_capacity_percent_default(config, default_value=None)`. -/
def get_cpu_cache_capacity_percent_default (env : Env) (config : Option Store)
    (default_value : Option ℚ) : Option CapacityValue :=
  let dv := default_value.getD 0
  match get_config_value config CONFIG_CPU_CAPACITY_PERCENT_KEY (CValue.float dv) with
  | CValue.float percent =>
      let ratio := percent / 100
      some ⟨pyInt (ratio * (env.cpuMemoryTotal : ℚ)), percent⟩
  | _ => none

/-- `configmaya.get_scene_option(name, default)`.  Modelled from the spec:
`mmSolver.utils.configmaya` (not among the examined files) reads a scene
option, returning the supplied default when the option was never set. -/
def get_scene_option (st : AppState) (name : String) (default : Option CValue) :
    Option CValue :=
  (st.scene name).orElse (fun _ => default)

/-- `get_cache_scene_override()`: reads the scene override flag with default
`None`.  Result `some (some b)` is a returned bool, `some none` is a returned
Python `None` (option never set), `none` is the assertion failure on a stored
non-bool value. -/
def get_cache_scene_override (st : AppState) : Option (Option Bool) :=
  match get_scene_option st CONFIG_SCENE_CAPACITY_OVERRIDE_KEY none with
  | none => some none
  | some (CValue.bool b) => some (some b)
  | some _ => none

/-- `get_gpu_cache_capacity_percent_scene(default_value=None)`. -/
def get_gpu_cache_capacity_percent_scene (env : Env) (st : AppState)
    (default_value : Option ℚ) : Option CapacityValue :=
  let dv := default_value.getD 0
  match get_scene_option st CONFIG_SCENE_GPU_CAPACITY_PERCENT_KEY (some (CValue.float dv)) with
  | some (CValue.float percent) =>
      let ratio := percent / 100
      some ⟨pyInt (ratio * (env.gpuMemoryTotal : ℚ)), percent⟩
  | _ => none

/-- `get_cpu_cache_capacity_percent_scene(default_value=None)`. -/
def get_cpu_cache_capacity_percent_scene (env : Env) (st : AppState)
    (default_value : Option ℚ) : Option CapacityValue :=
  let dv := default_value.getD 0
  match get_scene_option st CONFIG_SCENE_CPU_CAPACITY_PERCENT_KEY (some (CValue.float dv)) with
  | some (CValue.float percent) =>
      let ratio := percent / 100
      some ⟨pyInt (ratio * (env.cpuMemoryTotal : ℚ)), percent⟩
  | _ => none

/-- `configmaya.set_scene_option(name, value, add_attr=True)`.  Modelled from
the spec: writes one scene option, creating it if absent. -/
def set_scene_option (st : AppState) (name : String) (value : CValue) : AppState :=
  { st with scene := st.scene.set name value }

/-- `set_cache_scene_override(value)`.  The Python assertion also admits
`None`, but every caller in the examined source passes a bool; only the bool
case is modelled. -/
def set_cache_scene_override (value : Bool) (st : AppState) : AppState :=
  set_scene_option st CONFIG_SCENE_CAPACITY_OVERRIDE_KEY (CValue.bool value)

/-- `set_gpu_cache_capacity_percent_scene(percent)`. -/
def set_gpu_cache_capacity_percent_scene (percent : ℚ) (st : AppState) : AppState :=
  set_scene_option st CONFIG_SCENE_GPU_CAPACITY_PERCENT_KEY (CValue.float percent)

/-- `set_cpu_cache_capacity_percent_scene(percent)`. -/
def set_cpu_cache_capacity_percent_scene (percent : ℚ) (st : AppState) : AppState :=
  set_scene_option st CONFIG_SCENE_CPU_CAPACITY_PERCENT_KEY (CValue.float percent)

/-- The widget values `ImageCachePrefsLayout` reads:
`imageCacheSceneSettings_groupBox.isChecked()`, the four capacity double
spin boxes, and `updateEvery_spinBox.value()`. -/
structure WidgetState where
  sceneSettingsChecked : Bool
  gpuDefaultSpin : ℚ
  cpuDefaultSpin : ℚ
  gpuSceneSpin : ℚ
  cpuSceneSpin : ℚ
  updateEverySpin : ℤ

/-- `ImageCachePrefsLayout._get_capacity_bytes(scene_override,
default_spin_box, scene_spin_box, memory_total)`: pick the scene spin-box
percent when the override is on, else the default spin-box percent, and
compute `int(percent / 100.0 * memory_total)`. -/
def get_capacity_bytes (scene_override : Bool) (default_percent scene_percent : ℚ)
    (memory_total : ℤ) : ℤ :=
  let percent := if scene_override then scene_percent else default_percent
  let ratio := percent / 100
  pyInt (ratio * (memory_total : ℚ))

/-- `ImageCachePrefsLayout.get_gpu_capacity_bytes()`: resolves against the
GPU memory total queried live at this call (the `Env` argument). -/
def get_gpu_capacity_bytes (env : Env) (w : WidgetState) : ℤ :=
  get_capacity_bytes w.sceneSettingsChecked w.gpuDefaultSpin w.gpuSceneSpin
    env.gpuMemoryTotal

/-- `ImageCachePrefsLayout.get_cpu_capacity_bytes()`. -/
def get_cpu_capacity_bytes (env : Env) (w : WidgetState) : ℤ :=
  get_capacity_bytes w.sceneSettingsChecked w.cpuDefaultSpin w.cpuSceneSpin
    env.cpuMemoryTotal

/-- `const_utils.BYTES_TO_GIGABYTES`.  Modelled from the spec: the byte→GB
divisor from `mmSolver.utils.constant` (not among the examined files); its
exact value is immaterial to the claims verified here. -/
def BYTES_TO_GIGABYTES : ℚ := 1073741824

/-- `set_memory_used_label(label, used_size_bytes, total_size_bytes)`:
the gigabyte figure and the percentage rendered into the label.  Both are
`0.0` unless their guard (`> 0` on the operands) holds. -/
def set_memory_used_label (used_size_bytes total_size_bytes : ℤ) : ℚ × ℚ :=
  let used_gigabytes : ℚ :=
    if 0 < used_size_bytes then (used_size_bytes : ℚ) / BYTES_TO_GIGABYTES else 0
  let used_percent : ℚ :=
    if 0 < used_size_bytes ∧ 0 < total_size_bytes then
      (used_size_bytes : ℚ) / (total_size_bytes : ℚ) * 100
    else 0
  (used_gigabytes, used_percent)

/-- `set_used_size_label(label, used_size_bytes, capacity_size_bytes)`. -/
def set_used_size_label (used_size_bytes capacity_size_bytes : ℤ) : ℚ × ℚ :=
  let used_gigabytes : ℚ :=
    if 0 < used_size_bytes then (used_size_bytes : ℚ) / BYTES_TO_GIGABYTES else 0
  let used_percent : ℚ :=
    if 0 < used_size_bytes ∧ 0 < capacity_size_bytes then
      (used_size_bytes : ℚ) / (capacity_size_bytes : ℚ) * 100
    else 0
  (used_gigabytes, used_percent)

/-- `set_value_double_spin_box(doubleSpinBox, value)`: the spin box receives
`doubleSpinBox.setValue(int(value))`, so it ends up holding the float of the
truncated value. -/
def set_value_double_spin_box (value : ℚ) : ℚ :=
  ((pyInt value : ℤ) : ℚ)

/-- What `set_capacity_widgets` writes into one capacity widget group.
`sliderPercent` records the percent handed to `set_percent_slider` (the
slider's integer transform depends on widget bounds outside the examined
source); `spinBoxValue` is the double spin box's resulting value. -/
structure CapacityWidgetView where
  labelBytes : ℤ
  sliderPercent : ℚ
  spinBoxValue : ℚ
  deriving DecidableEq

/-- `set_capacity_widgets(label, slider, double_spin_box, capacity_bytes,
capacity_percent)`. -/
def set_capacity_widgets (capacity_bytes : ℤ) (capacity_percent : ℚ) :
    CapacityWidgetView :=
  { labelBytes := capacity_bytes
    sliderPercent := capacity_percent
    spinBoxValue := set_value_double_spin_box capacity_percent }

/-- `scene_override is True` as the Python code tests it (a `None` flag is
not `True`). -/
def is_true (v : Option Bool) : Bool :=
  match v with
  | some true => true
  | _ => false

/-- The widget values `ImageCachePrefsLayout.reset_options` writes (the
telemetry labels refreshed by `update_resource_values` carry no
configuration state and are omitted). -/
structure ResetResult where
  updateSeconds : ℤ
  defaultGpuView : CapacityWidgetView
  defaultCpuView : CapacityWidgetView
  sceneChecked : Bool
  sceneGpuView : CapacityWidgetView
  sceneCpuView : CapacityWidgetView
  deriving DecidableEq

/-- `ImageCachePrefsLayout.reset_options()`: populate the widgets from the
config file and, when the scene override flag `is True`, from the scene
options; `none` on an assertion failure in any getter. -/
def reset_options (env : Env) (config : Option Store) (st : AppState) :
    Option ResetResult := do
  let update_seconds ← get_update_every_n_seconds config none
  let default_gpu_capacity ← get_gpu_cache_capacity_percent_default env config none
  let default_cpu_capacity ← get_cpu_cache_capacity_percent_default env config none
  let scene_override ← get_cache_scene_override st
  let scene_gpu_capacity ←
    if is_true scene_override then get_gpu_cache_capacity_percent_scene env st none
    else pure default_gpu_capacity
  let scene_cpu_capacity ←
    if is_true scene_override then get_cpu_cache_capacity_percent_scene env st none
    else pure default_cpu_capacity
  pure
    { updateSeconds := update_seconds
      defaultGpuView :=
        set_capacity_widgets default_gpu_capacity.size_bytes default_gpu_capacity.percent
      defaultCpuView :=
        set_capacity_widgets default_cpu_capacity.size_bytes default_cpu_capacity.percent
      sceneChecked := is_true scene_override
      sceneGpuView :=
        set_capacity_widgets scene_gpu_capacity.size_bytes scene_gpu_capacity.percent
      sceneCpuView :=
        set_capacity_widgets scene_cpu_capacity.size_bytes scene_cpu_capacity.percent }

/-- `ImageCachePrefsLayout.save_options()`: write the update interval and the
two default percents to the config file, write the override flag to the
scene, and — only when the override group box is checked — write the two
scene percents. -/
def save_options (w : WidgetState) (st : AppState) : AppState :=
  let config :=
    ((st.config.set CONFIG_UPDATE_EVERY_N_SECONDS_KEY
        (CValue.int w.updateEverySpin)).set
      CONFIG_GPU_CAPACITY_PERCENT_KEY (CValue.float w.gpuDefaultSpin)).set
      CONFIG_CPU_CAPACITY_PERCENT_KEY (CValue.float w.cpuDefaultSpin)
  let st1 : AppState := { st with config := config }
  let st2 := set_cache_scene_override w.sceneSettingsChecked st1
  if w.sceneSettingsChecked then
    set_cpu_cache_capacity_percent_scene w.cpuSceneSpin
      (set_gpu_cache_capacity_percent_scene w.gpuSceneSpin st2)
  else st2

/-- The empty store: no key ever set. -/
def emptyStore : Store := fun _ => none

/-- A scene in which no option was ever set and nothing is cached. -/
def emptyAppState : AppState :=
  { config := emptyStore, scene := emptyStore, cache := ⟨[], []⟩ }

/-- A scene whose override flag was saved `True`. -/
def overrideTrueState : AppState :=
  { emptyAppState with
      scene := emptyStore.set CONFIG_SCENE_CAPACITY_OVERRIDE_KEY (CValue.bool true) }

/-- A scene holding a saved GPU override percent of 70 with the override
flag saved `False`. -/
def savedSceneState : AppState :=
  { emptyAppState with
      scene :=
        (emptyStore.set CONFIG_SCENE_GPU_CAPACITY_PERCENT_KEY
            (CValue.float 70)).set
          CONFIG_SCENE_CAPACITY_OVERRIDE_KEY (CValue.bool false) }

/-- Widget values with the scene-settings group box checked and every
capacity spin box at 50 percent. -/
def toggledWidgets : WidgetState :=
  { sceneSettingsChecked := true
    gpuDefaultSpin := 50
    cpuDefaultSpin := 50
    gpuSceneSpin := 50
    cpuSceneSpin := 50
    updateEverySpin := 2 }

/-- The same widget values with the scene-settings group box unchecked. -/
def uncheckedWidgets : WidgetState :=
  { toggledWidgets with sceneSettingsChecked := false }

/-- A scene with a GPU override percent saved (33) but the override flag
never set. -/
def unsetOverrideState : AppState :=
  { emptyAppState with
      scene := emptyStore.set CONFIG_SCENE_GPU_CAPACITY_PERCENT_KEY (CValue.float 33) }

lemma pyInt_of_nonneg {q : ℚ} (h : 0 ≤ q) : pyInt q = ⌊q⌋ := by
  simp [pyInt, h]

lemma capacity_ratio_nonneg {p : ℚ} {t : ℤ} (hp : 0 ≤ p) (ht : 0 ≤ t) :
    0 ≤ p / 100 * (t : ℚ) := by
  have ht' : (0 : ℚ) ≤ (t : ℚ) := by exact_mod_cast ht
  have : (0 : ℚ) ≤ p / 100 := by positivity
  exact mul_nonneg this ht'

/-- C1.  Capacity scope resolution: for percents in the percent domain
(non-negative) and a non-negative pool total, `_get_capacity_bytes` returns
`⌊override/100 * total⌋` when the override is enabled and
`⌊default/100 * total⌋` otherwise; in particular with default 50, override 90
and total 1000 it returns 500 bytes with the override disabled and 900 bytes
with it enabled. -/
theorem capacity_scope_resolution :
    (∀ (e : Bool) (d o : ℚ) (t : ℤ), 0 ≤ d → 0 ≤ o → 0 ≤ t →
      get_capacity_bytes e d o t =
        if e then ⌊o / 100 * (t : ℚ)⌋ else ⌊d / 100 * (t : ℚ)⌋) ∧
    get_capacity_bytes false 50 90 1000 = 500 ∧
    get_capacity_bytes true 50 90 1000 = 900 := by
  refine ⟨?_, ?_, ?_⟩
  · intro e d o t hd ho ht
    cases e with
    | false =>
        simp [get_capacity_bytes, pyInt_of_nonneg (capacity_ratio_nonneg hd ht)]
    | true =>
        simp [get_capacity_bytes, pyInt_of_nonneg (capacity_ratio_nonneg ho ht)]
  · norm_num [get_capacity_bytes, pyInt]
  · norm_num [get_capacity_bytes, pyInt]

/-- Witness for C1 at the spec's concrete instance. -/
theorem capacity_scope_resolution_witness :
    get_capacity_bytes true 50 90 1000 = ⌊(90 : ℚ) / 100 * (1000 : ℚ)⌋ := by
  have h := capacity_scope_resolution.1 true 50 90 1000 (by norm_num) (by norm_num)
    (by norm_num)
  simpa using h

lemma store_set_self (s : Store) (k : String) (v : CValue) :
    (s.set k v) k = some v := by
  simp [Store.set]

lemma store_set_ne (s : Store) (k : String) (v : CValue) {k' : String}
    (h : k' ≠ k) : (s.set k v) k' = s k' := by
  simp [Store.set, h]

lemma scene_gpu_key_ne_override :
    CONFIG_SCENE_GPU_CAPACITY_PERCENT_KEY ≠ CONFIG_SCENE_CAPACITY_OVERRIDE_KEY := by
  decide

lemma scene_cpu_key_ne_override :
    CONFIG_SCENE_CPU_CAPACITY_PERCENT_KEY ≠ CONFIG_SCENE_CAPACITY_OVERRIDE_KEY := by
  decide

/-- C2 counterexample.  The percent-to-bytes conversion does not clamp:
with a stored percent of 200 and a pool total of 1000 bytes the computed
capacity is 2000 bytes, which is not between 0 and the pool total. -/
theorem percent_clamp_counterexample :
    get_capacity_bytes false 200 0 1000 = 2000 ∧
    ¬ get_capacity_bytes false 200 0 1000 ≤ 1000 := by
  norm_num [get_capacity_bytes, pyInt]

/-- C2 amended.  The conversion never rejects or errors, but performs no
clamping: for percents inside [0,100] and a non-negative total the computed
capacity lies between 0 and the pool total, while an out-of-range stored
percent is accepted and used as-is (so the capacity can land outside
[0, total]). -/
theorem percent_conversion_no_clamp :
    (∀ (p : ℚ) (t : ℤ), 0 ≤ p → p ≤ 100 → 0 ≤ t →
      0 ≤ get_capacity_bytes false p 0 t ∧ get_capacity_bytes false p 0 t ≤ t) ∧
    (∀ (env : Env) (c : Store) (p : ℚ),
      c CONFIG_GPU_CAPACITY_PERCENT_KEY = some (CValue.float p) →
      get_gpu_cache_capacity_percent_default env (some c) none =
        some ⟨pyInt (p / 100 * (env.gpuMemoryTotal : ℚ)), p⟩) := by
  constructor
  · intro p t hp h100 ht
    have hx : (0 : ℚ) ≤ p / 100 * (t : ℚ) := capacity_ratio_nonneg hp ht
    have ht' : (0 : ℚ) ≤ (t : ℚ) := by exact_mod_cast ht
    have h1 : p / 100 ≤ 1 := (div_le_one (by norm_num : (0 : ℚ) < 100)).mpr h100
    have hle : p / 100 * (t : ℚ) ≤ (t : ℚ) := by
      calc p / 100 * (t : ℚ) ≤ 1 * (t : ℚ) := mul_le_mul_of_nonneg_right h1 ht'
        _ = (t : ℚ) := one_mul _
    have e : get_capacity_bytes false p 0 t = ⌊p / 100 * (t : ℚ)⌋ := by
      simp [get_capacity_bytes, pyInt_of_nonneg hx]
    refine ⟨?_, ?_⟩
    · rw [e]; exact Int.floor_nonneg.mpr hx
    · rw [e]
      calc ⌊p / 100 * (t : ℚ)⌋ ≤ ⌊(t : ℚ)⌋ := Int.floor_mono hle
        _ = t := Int.floor_intCast t
  · intro env c p hc
    simp [get_gpu_cache_capacity_percent_default, get_config_value, hc]

/-- Witness for the amended C2 at percent 40, total 1000 (and a stored
out-of-range percent 200 accepted as-is). -/
theorem percent_conversion_no_clamp_witness :
    (0 ≤ get_capacity_bytes false 40 0 1000 ∧
      get_capacity_bytes false 40 0 1000 ≤ 1000) ∧
    get_gpu_cache_capacity_percent_default ⟨1000, 1000⟩
        (some (emptyStore.set CONFIG_GPU_CAPACITY_PERCENT_KEY (CValue.float 200)))
        none =
      some ⟨pyInt ((200 : ℚ) / 100 * ((1000 : ℤ) : ℚ)), 200⟩ := by
  constructor
  · exact percent_conversion_no_clamp.1 40 1000 (by norm_num) (by norm_num) (by norm_num)
  · exact percent_conversion_no_clamp.2 ⟨1000, 1000⟩ _ 200
      (store_set_self emptyStore CONFIG_GPU_CAPACITY_PERCENT_KEY (CValue.float 200))

/-- C3 counterexample.  In a scene where the override option was never set,
`get_cache_scene_override` returns Python `None` (modelled `some none`), not
a bool. -/
theorem scene_override_unset_counterexample :
    get_cache_scene_override emptyAppState = some none ∧
    ∀ b : Bool, get_cache_scene_override emptyAppState ≠ some (some b) := by
  constructor
  · rfl
  · intro b
    simp [get_cache_scene_override, get_scene_option, emptyAppState, emptyStore]

/-- C3 amended.  `get_cache_scene_override` returns an optional bool: the
stored bool when the option was set to a bool, and `None` when the option was
never set. -/
theorem scene_override_query_typed :
    (∀ (st : AppState) (b : Bool),
      st.scene CONFIG_SCENE_CAPACITY_OVERRIDE_KEY = some (CValue.bool b) →
      get_cache_scene_override st = some (some b)) ∧
    (∀ st : AppState,
      st.scene CONFIG_SCENE_CAPACITY_OVERRIDE_KEY = none →
      get_cache_scene_override st = some none) := by
  constructor
  · intro st b h
    simp [get_cache_scene_override, get_scene_option, h, Option.orElse]
  · intro st h
    simp [get_cache_scene_override, get_scene_option, h, Option.orElse]

/-- Witness for the amended C3: a scene with the flag saved `True`, and a
scene with the flag never set. -/
theorem scene_override_query_typed_witness :
    get_cache_scene_override overrideTrueState = some (some true) ∧
    get_cache_scene_override emptyAppState = some none := by
  constructor
  · exact scene_override_query_typed.1 overrideTrueState true
      (by simp [overrideTrueState, emptyAppState, store_set_self])
  · exact scene_override_query_typed.2 emptyAppState rfl

/-- C4 counterexample.  Saving the options with the override group box
toggled on does change a stored per-scene override percent: from a scene
holding a saved GPU override percent of 70 (flag `False`) and widgets whose
scene spin box reads 50, `save_options` rewrites the stored scene GPU
percent to 50. -/
theorem save_toggle_clobbers_override_counterexample :
    (save_options toggledWidgets savedSceneState).scene
        CONFIG_SCENE_GPU_CAPACITY_PERCENT_KEY ≠
      savedSceneState.scene CONFIG_SCENE_GPU_CAPACITY_PERCENT_KEY := by
  have lhs :
      (save_options toggledWidgets savedSceneState).scene
          CONFIG_SCENE_GPU_CAPACITY_PERCENT_KEY = some (CValue.float 50) := by
    simp [save_options, toggledWidgets, set_cpu_cache_capacity_percent_scene,
      set_gpu_cache_capacity_percent_scene, set_scene_option,
      store_set_self,
      store_set_ne _ _ _ (by decide :
        CONFIG_SCENE_GPU_CAPACITY_PERCENT_KEY ≠
          CONFIG_SCENE_CPU_CAPACITY_PERCENT_KEY)]
  have rhs :
      savedSceneState.scene CONFIG_SCENE_GPU_CAPACITY_PERCENT_KEY =
        some (CValue.float 70) := by
    simp [savedSceneState, store_set_self,
      store_set_ne _ _ _ scene_gpu_key_ne_override]
  rw [lhs, rhs]
  simp only [ne_eq, Option.some.injEq, CValue.float.injEq]
  norm_num

/-- C4 amended.  Writing the flag alone (`set_cache_scene_override`) changes
neither the stored default percents (config untouched) nor the stored scene
percents (only the override key changes).  `save_options` always rewrites the
stored default percents from the spin boxes and, when the group box is
checked, rewrites the stored scene percents from the spin boxes — so saving
with the box toggled on can overwrite stored override percents; when the box
is unchecked the stored override values are left untouched, and capacity
resolution with the flag off ignores the override percent entirely. -/
theorem override_toggle_preserves_percents :
    (∀ (v : Bool) (st : AppState) (k : String),
      k ≠ CONFIG_SCENE_CAPACITY_OVERRIDE_KEY →
      (set_cache_scene_override v st).scene k = st.scene k) ∧
    (∀ (v : Bool) (st : AppState),
      (set_cache_scene_override v st).config = st.config) ∧
    (∀ (w : WidgetState) (st : AppState), w.sceneSettingsChecked = false →
      (save_options w st).scene CONFIG_SCENE_GPU_CAPACITY_PERCENT_KEY =
          st.scene CONFIG_SCENE_GPU_CAPACITY_PERCENT_KEY ∧
      (save_options w st).scene CONFIG_SCENE_CPU_CAPACITY_PERCENT_KEY =
          st.scene CONFIG_SCENE_CPU_CAPACITY_PERCENT_KEY) ∧
    (∀ (d o o' : ℚ) (t : ℤ),
      get_capacity_bytes false d o t = get_capacity_bytes false d o' t) := by
  refine ⟨?_, ?_, ?_, ?_⟩
  · intro v st k h
    simp [set_cache_scene_override, set_scene_option, store_set_ne _ _ _ h]
  · intro v st
    rfl
  · intro w st h
    constructor
    · simp [save_options, h, set_cache_scene_override, set_scene_option,
        store_set_ne _ _ _ scene_gpu_key_ne_override]
    · simp [save_options, h, set_cache_scene_override, set_scene_option,
        store_set_ne _ _ _ scene_cpu_key_ne_override]
  · intro d o o' t
    rfl

/-- Witness for the amended C4: writing the flag over the empty scene leaves
the GPU percent key unset, and saving with the box unchecked leaves the
saved override percent of 70 in place. -/
theorem override_toggle_preserves_percents_witness :
    (set_cache_scene_override true emptyAppState).scene
        CONFIG_SCENE_GPU_CAPACITY_PERCENT_KEY =
      emptyAppState.scene CONFIG_SCENE_GPU_CAPACITY_PERCENT_KEY ∧
    (save_options uncheckedWidgets savedSceneState).scene
        CONFIG_SCENE_GPU_CAPACITY_PERCENT_KEY =
      savedSceneState.scene CONFIG_SCENE_GPU_CAPACITY_PERCENT_KEY := by
  constructor
  · exact override_toggle_preserves_percents.1 true emptyAppState
      CONFIG_SCENE_GPU_CAPACITY_PERCENT_KEY scene_gpu_key_ne_override
  · exact (override_toggle_preserves_percents.2.2.1 uncheckedWidgets
      savedSceneState rfl).1

/-- C5.  Writing a capacity percent or the override flag
(`set_gpu_cache_capacity_percent_scene`, `set_cpu_cache_capacity_percent_scene`,
`set_cache_scene_override`, or the config writes in `save_options`) only
updates stored configuration: the cache pools are untouched — no eviction, no
resize. -/
theorem percent_writes_touch_no_cache :
    (∀ (p : ℚ) (st : AppState),
      (set_gpu_cache_capacity_percent_scene p st).cache = st.cache) ∧
    (∀ (p : ℚ) (st : AppState),
      (set_cpu_cache_capacity_percent_scene p st).cache = st.cache) ∧
    (∀ (v : Bool) (st : AppState),
      (set_cache_scene_override v st).cache = st.cache) ∧
    (∀ (w : WidgetState) (st : AppState),
      (save_options w st).cache = st.cache) := by
  refine ⟨fun p st => rfl, fun p st => rfl, fun v st => rfl, fun w st => ?_⟩
  unfold save_options
  by_cases h : w.sceneSettingsChecked <;>
    simp [h, set_cpu_cache_capacity_percent_scene,
      set_gpu_cache_capacity_percent_scene, set_cache_scene_override,
      set_scene_option]

/-- C6.  Capacity resolution uses the memory total queried live at each
call: with the effective percent fixed by the widgets, two calls made under
totals t₁ and t₂ return `⌊p/100 * t₁⌋` and `⌊p/100 * t₂⌋` respectively, for
both the GPU and the CPU pool. -/
theorem capacity_uses_live_memory_total :
    ∀ (w : WidgetState) (e1 e2 : Env) (p q : ℚ),
      p = (if w.sceneSettingsChecked then w.gpuSceneSpin else w.gpuDefaultSpin) →
      q = (if w.sceneSettingsChecked then w.cpuSceneSpin else w.cpuDefaultSpin) →
      0 < p → 0 < q →
      0 ≤ e1.gpuMemoryTotal → 0 ≤ e2.gpuMemoryTotal →
      0 ≤ e1.cpuMemoryTotal → 0 ≤ e2.cpuMemoryTotal →
      (get_gpu_capacity_bytes e1 w = ⌊p / 100 * (e1.gpuMemoryTotal : ℚ)⌋ ∧
        get_gpu_capacity_bytes e2 w = ⌊p / 100 * (e2.gpuMemoryTotal : ℚ)⌋) ∧
      (get_cpu_capacity_bytes e1 w = ⌊q / 100 * (e1.cpuMemoryTotal : ℚ)⌋ ∧
        get_cpu_capacity_bytes e2 w = ⌊q / 100 * (e2.cpuMemoryTotal : ℚ)⌋) := by
  intro w e1 e2 p q hp hq hppos hqpos h1 h2 h3 h4
  subst hp
  subst hq
  refine ⟨⟨?_, ?_⟩, ?_, ?_⟩ <;>
    simp [get_gpu_capacity_bytes, get_cpu_capacity_bytes, get_capacity_bytes,
      pyInt_of_nonneg (capacity_ratio_nonneg (le_of_lt hppos) h1),
      pyInt_of_nonneg (capacity_ratio_nonneg (le_of_lt hppos) h2),
      pyInt_of_nonneg (capacity_ratio_nonneg (le_of_lt hqpos) h3),
      pyInt_of_nonneg (capacity_ratio_nonneg (le_of_lt hqpos) h4)]

/-- Witness for C6: a 50 percent default with the override box unchecked,
against memory totals 1000 and 2000. -/
theorem capacity_uses_live_memory_total_witness :
    get_gpu_capacity_bytes ⟨1000, 1000⟩ uncheckedWidgets =
      ⌊(50 : ℚ) / 100 * (((1000 : ℤ)) : ℚ)⌋ ∧
    get_gpu_capacity_bytes ⟨2000, 4000⟩ uncheckedWidgets =
      ⌊(50 : ℚ) / 100 * (((2000 : ℤ)) : ℚ)⌋ := by
  have h := capacity_uses_live_memory_total uncheckedWidgets ⟨1000, 1000⟩
    ⟨2000, 4000⟩ 50 50 rfl rfl (by norm_num) (by norm_num) (by norm_num)
    (by norm_num) (by norm_num) (by norm_num)
  exact ⟨h.1.1, h.1.2⟩

/-- C7.  With the default capacity percent key unset (absent config object
or missing key), the default-percent getters return the built-in default
percent 0.0 with a derived byte size of 0, whatever the live pool totals. -/
theorem lazy_default_percent :
    (∀ env : Env,
      get_gpu_cache_capacity_percent_default env none none = some ⟨0, 0⟩ ∧
      get_cpu_cache_capacity_percent_default env none none = some ⟨0, 0⟩) ∧
    (∀ (env : Env) (c : Store),
      c CONFIG_GPU_CAPACITY_PERCENT_KEY = none →
      get_gpu_cache_capacity_percent_default env (some c) none = some ⟨0, 0⟩) ∧
    (∀ (env : Env) (c : Store),
      c CONFIG_CPU_CAPACITY_PERCENT_KEY = none →
      get_cpu_cache_capacity_percent_default env (some c) none = some ⟨0, 0⟩) := by
  refine ⟨fun env => ⟨?_, ?_⟩, fun env c h => ?_, fun env c h => ?_⟩
  · simp [get_gpu_cache_capacity_percent_default, get_config_value, pyInt]
  · simp [get_cpu_cache_capacity_percent_default, get_config_value, pyInt]
  · simp [get_gpu_cache_capacity_percent_default, get_config_value, pyInt, h]
  · simp [get_cpu_cache_capacity_percent_default, get_config_value, pyInt, h]

/-- Witness for C7 at a concrete environment and the empty config. -/
theorem lazy_default_percent_witness :
    get_gpu_cache_capacity_percent_default ⟨123456789, 987654321⟩ (some emptyStore)
      none = some ⟨0, 0⟩ := by
  exact lazy_default_percent.2.1 ⟨123456789, 987654321⟩ emptyStore rfl

/-- C8.  The telemetry label formatters guard their division: the usage
percentage is computed only when both operands are strictly positive, and is
rendered 0.0 whenever the used bytes are not positive or the total/capacity
is not positive — a zero-capacity pool shows 0.0%, never an error. -/
theorem telemetry_percent_guard :
    ∀ (u t : ℤ),
      (¬(0 < u ∧ 0 < t) →
        (set_memory_used_label u t).2 = 0 ∧ (set_used_size_label u t).2 = 0) ∧
      (0 < u → 0 < t →
        (set_memory_used_label u t).2 = (u : ℚ) / (t : ℚ) * 100 ∧
        (set_used_size_label u t).2 = (u : ℚ) / (t : ℚ) * 100) := by
  intro u t
  constructor
  · intro h
    constructor <;> simp [set_memory_used_label, set_used_size_label, h]
  · intro hu ht
    constructor <;> simp [set_memory_used_label, set_used_size_label, hu, ht]

/-- Witness for C8: used 5 with total 0 renders 0.0%, used 50 of capacity
200 renders the computed ratio. -/
theorem telemetry_percent_guard_witness :
    ((set_memory_used_label 5 0).2 = 0 ∧ (set_used_size_label 5 0).2 = 0) ∧
    (set_used_size_label 50 200).2 = (((50 : ℤ)) : ℚ) / (((200 : ℤ)) : ℚ) * 100 := by
  exact ⟨(telemetry_percent_guard 5 0).1 (by norm_num),
    ((telemetry_percent_guard 50 200).2 (by norm_num) (by norm_num)).2⟩

/-- C9.  An unset scene override flag behaves exactly like a disabled one in
`reset_options`: the produced widget state is identical to the `False` case
whatever the scenes' stored percent options (so the per-scene percent options
are never read), the group box ends up unchecked, and the scene capacity
widgets carry the default-scope capacities. -/
theorem reset_treats_unset_override_as_disabled :
    ∀ (env : Env) (config : Option Store) (stA stB : AppState),
      get_cache_scene_override stA = some none →
      get_cache_scene_override stB = some (some false) →
      reset_options env config stA = reset_options env config stB ∧
      (∀ r : ResetResult, reset_options env config stA = some r →
        r.sceneChecked = false ∧ r.sceneGpuView = r.defaultGpuView ∧
        r.sceneCpuView = r.defaultCpuView) := by
  intro env config stA stB hA hB
  constructor
  · simp [reset_options, hA, hB, is_true]
  · intro r hr
    cases hu : get_update_every_n_seconds config none with
    | none => simp [reset_options, hu] at hr
    | some u =>
      cases hg : get_gpu_cache_capacity_percent_default env config none with
      | none => simp [reset_options, hu, hg] at hr
      | some dg =>
        cases hc : get_cpu_cache_capacity_percent_default env config none with
        | none => simp [reset_options, hu, hg, hc] at hr
        | some dc =>
          simp [reset_options, hu, hg, hc, hA, is_true] at hr
          subst hr
          exact ⟨rfl, rfl, rfl⟩

/-- Witness for C9: a scene with a stored GPU override percent of 33 but the
flag never set, against a scene with the flag saved `False` over a stored
GPU override percent of 70. -/
theorem reset_treats_unset_override_as_disabled_witness :
    reset_options ⟨1000, 1000⟩ (some emptyStore) unsetOverrideState =
      reset_options ⟨1000, 1000⟩ (some emptyStore) savedSceneState := by
  exact (reset_treats_unset_override_as_disabled ⟨1000, 1000⟩ (some emptyStore)
    unsetOverrideState savedSceneState
    (by simp [get_cache_scene_override, get_scene_option, unsetOverrideState,
      emptyAppState, store_set_ne _ _ _ (Ne.symm scene_gpu_key_ne_override),
      emptyStore, Option.orElse])
    (by simp [get_cache_scene_override, get_scene_option, savedSceneState,
      emptyAppState, store_set_self, Option.orElse])).1

/-- C10.  `set_value_double_spin_box` stores `int(value)` (truncation toward
zero), so `set_capacity_widgets` displays the floor of any non-negative
fractional percent; in particular 12.7 becomes 12.0. -/
theorem spin_box_truncates :
    (∀ p : ℚ, 0 ≤ p → set_value_double_spin_box p = ((⌊p⌋ : ℤ) : ℚ)) ∧
    (∀ (b : ℤ) (p : ℚ), 0 ≤ p →
      (set_capacity_widgets b p).spinBoxValue = ((⌊p⌋ : ℤ) : ℚ)) ∧
    set_value_double_spin_box (127 / 10) = 12 := by
  refine ⟨?_, ?_, ?_⟩
  · intro p hp
    simp [set_value_double_spin_box, pyInt_of_nonneg hp]
  · intro b p hp
    simp [set_capacity_widgets, set_value_double_spin_box, pyInt_of_nonneg hp]
  · have h : ⌊(127 / 10 : ℚ)⌋ = 12 := by
      rw [Int.floor_eq_iff]
      norm_num
    simp [set_value_double_spin_box, pyInt, h]
    norm_num

/-- Witness for C10 at 12.7. -/
theorem spin_box_truncates_witness :
    set_value_double_spin_box (127 / 10) = ((⌊(127 / 10 : ℚ)⌋ : ℤ) : ℚ) := by
  exact spin_box_truncates.1 (127 / 10) (by norm_num)
